import Mathlib

/-!
# lgi: native Lua wrappers around GIRepository (src/gi.c)

A shallow embedding of `src/gi.c`.  Every C function of the file that reads
or builds an info, a collection or a namespace becomes a total Lean function.  The Lua stack is reduced to what each function reads
(its arguments, already converted by `luaL_checkstring` or
`luaL_checkinteger` where the C code converts them) and what it leaves
(the values it returns, or the error it raises).  The foreign memory of the
introspection repository is an explicit heap of reference-counted nodes.
-/

namespace Lgi

/-! ## Foreign side: the introspection repository -/

/-- A `GIBaseInfo *`.  Address `0` is `NULL`. -/
abbrev Ptr := Nat

/-- Modelled from the spec: the `GIInfoType` enumeration of the girepository
headers (absent from src/), the closed list of node kinds of spec §3, in the
order `info_index` lists them. -/
inductive GIInfoType
  | FUNCTION | CALLBACK | STRUCT | BOXED | ENUM | FLAGS | OBJECT | INTERFACE
  | CONSTANT | ERROR_DOMAIN | UNION | VALUE | SIGNAL | VFUNC | PROPERTY
  | FIELD | ARG | TYPE | UNRESOLVED
  deriving DecidableEq, Repr

/-- Modelled from the spec: the `GITypeTag` enumeration of the girepository
headers (absent from src/).  The five tags `info_index` tests are listed; any
other tag is `OTHER s`, with `s` the string `g_type_tag_to_string` gives it. -/
inductive GITypeTag
  | ARRAY | INTERFACE | GLIST | GSLIST | GHASH
  | OTHER (name : String)
  deriving DecidableEq, Repr

/-- Modelled from the spec: the `GIArrayType` enumeration of the girepository
headers (absent from src/), the four array representations of spec §4.4. -/
inductive GIArrayType
  | C | ARRAY | PTR_ARRAY | BYTE_ARRAY
  deriving DecidableEq, Repr

/-- Modelled from the spec: one node of the repository's metadata graph, the
memory a `GIBaseInfo *` points to (girepository, absent from src/).  It holds
the foreign reference count and everything the getters called by `gi.c` read. -/
structure GIBaseInfo where
  ref_count : Int
  type : GIInfoType
  name : String
  ns : String
  deprecated : Bool
  container : Ptr
  typeinfo : Ptr
  g_type : Nat
  value : Int
  is_gtype_struct : Bool
  parent : Ptr
  fields : List Ptr
  methods : List Ptr
  prerequisites : List Ptr
  interfaces : List Ptr
  constants : List Ptr
  properties : List Ptr
  signals : List Ptr
  tag : GITypeTag
  param_types : List Ptr
  interface : Ptr
  array_type : GIArrayType
  deriving DecidableEq, Repr

/-- The foreign memory: the live nodes, by address. -/
abbrev Heap := List (Ptr × GIBaseInfo)

/-- Dereference a `GIBaseInfo *`: there is no node at `NULL`, nor at an
address that is not live. -/
def Heap.deref (R : Heap) (p : Ptr) : Option GIBaseInfo :=
  if p = 0 then none else R.lookup p

/-- Overwrite the node at address `p`. -/
def Heap.store (R : Heap) (p : Ptr) (n : GIBaseInfo) : Heap :=
  R.map (fun e => if e.1 = p then (p, n) else e)

/-- The reference count of the node at `p`, when there is one. -/
def Heap.refs (R : Heap) (p : Ptr) : Option Int :=
  (R.deref p).map (fun n => n.ref_count)

/-- Modelled from the spec: `g_base_info_ref` (girepository, absent from
src/).  It increments the count stored in the node its argument points to, so
it has no result (`none`, a fault) for `NULL` or a dead address. -/
def g_base_info_ref (R : Heap) (info : Ptr) : Option Heap :=
  match R.deref info with
  | none => none
  | some n => some (R.store info { n with ref_count := n.ref_count + 1 })

/-- Modelled from the spec: `g_base_info_unref` (girepository, absent from
src/).  It decrements the count stored in the node its argument points to. -/
def g_base_info_unref (R : Heap) (info : Ptr) : Option Heap :=
  match R.deref info with
  | none => none
  | some n => some (R.store info { n with ref_count := n.ref_count - 1 })

/-- Modelled from the spec: a getter of the repository that hands out a new
reference (`g_object_info_get_parent`, `g_arg_info_get_type`, the child
getters, ...; girepository, absent from src/).  The pointer is returned as it
is, and one reference is taken on the node when it is live. -/
def transfer_full (R : Heap) (p : Ptr) : Ptr × Heap :=
  match g_base_info_ref R p with
  | none => (p, R)
  | some R1 => (p, R1)

/-! ### Kind predicates -/

/-- Modelled from the spec: `GI_IS_ARG_INFO` (girepository headers, absent
from src/). -/
def GI_IS_ARG_INFO (t : GIInfoType) : Bool := t = .ARG

/-- Modelled from the spec: `GI_IS_CALLABLE_INFO` (girepository headers,
absent from src/): function, callback, signal or vfunc. -/
def GI_IS_CALLABLE_INFO (t : GIInfoType) : Bool :=
  t = .FUNCTION || t = .CALLBACK || t = .SIGNAL || t = .VFUNC

/-- Modelled from the spec: `GI_IS_FUNCTION_INFO` (absent from src/). -/
def GI_IS_FUNCTION_INFO (t : GIInfoType) : Bool := t = .FUNCTION

/-- Modelled from the spec: `GI_IS_SIGNAL_INFO` (absent from src/). -/
def GI_IS_SIGNAL_INFO (t : GIInfoType) : Bool := t = .SIGNAL

/-- Modelled from the spec: `GI_IS_VFUNC_INFO` (absent from src/). -/
def GI_IS_VFUNC_INFO (t : GIInfoType) : Bool := t = .VFUNC

/-- Modelled from the spec: `GI_IS_CONSTANT_INFO` (absent from src/). -/
def GI_IS_CONSTANT_INFO (t : GIInfoType) : Bool := t = .CONSTANT

/-- Modelled from the spec: `GI_IS_ERROR_DOMAIN_INFO` (absent from src/). -/
def GI_IS_ERROR_DOMAIN_INFO (t : GIInfoType) : Bool := t = .ERROR_DOMAIN

/-- Modelled from the spec: `GI_IS_FIELD_INFO` (absent from src/). -/
def GI_IS_FIELD_INFO (t : GIInfoType) : Bool := t = .FIELD

/-- Modelled from the spec: `GI_IS_PROPERTY_INFO` (absent from src/). -/
def GI_IS_PROPERTY_INFO (t : GIInfoType) : Bool := t = .PROPERTY

/-- Modelled from the spec: `GI_IS_REGISTERED_TYPE_INFO` (girepository
headers, absent from src/): the registered-type family of the spec's
glossary, struct, object, enum, flags, interface, union, boxed. -/
def GI_IS_REGISTERED_TYPE_INFO (t : GIInfoType) : Bool :=
  t = .BOXED || t = .ENUM || t = .FLAGS || t = .INTERFACE || t = .OBJECT ||
    t = .STRUCT || t = .UNION

/-- Modelled from the spec: `GI_IS_ENUM_INFO` (absent from src/): enum or
flags. -/
def GI_IS_ENUM_INFO (t : GIInfoType) : Bool := t = .ENUM || t = .FLAGS

/-- Modelled from the spec: `GI_IS_INTERFACE_INFO` (absent from src/). -/
def GI_IS_INTERFACE_INFO (t : GIInfoType) : Bool := t = .INTERFACE

/-- Modelled from the spec: `GI_IS_OBJECT_INFO` (absent from src/). -/
def GI_IS_OBJECT_INFO (t : GIInfoType) : Bool := t = .OBJECT

/-- Modelled from the spec: `GI_IS_STRUCT_INFO` (absent from src/). -/
def GI_IS_STRUCT_INFO (t : GIInfoType) : Bool := t = .STRUCT

/-- Modelled from the spec: `GI_IS_UNION_INFO` (absent from src/). -/
def GI_IS_UNION_INFO (t : GIInfoType) : Bool := t = .UNION

/-- Modelled from the spec: `GI_IS_TYPE_INFO` (absent from src/). -/
def GI_IS_TYPE_INFO (t : GIInfoType) : Bool := t = .TYPE

/-- Modelled from the spec: `GI_IS_VALUE_INFO` (absent from src/). -/
def GI_IS_VALUE_INFO (t : GIInfoType) : Bool := t = .VALUE

/-- Modelled from the spec: `g_type_tag_to_string` (girepository, absent from
src/): the string name of a type tag. -/
def g_type_tag_to_string : GITypeTag → String
  | .ARRAY => "array"
  | .INTERFACE => "interface"
  | .GLIST => "glist"
  | .GSLIST => "gslist"
  | .GHASH => "ghash"
  | .OTHER s => s

/-! ### Child getters -/

/-- The functions `info_index` passes to `infos_new` as `InfosItemGet`
(`typedef GIBaseInfo *(* InfosItemGet)(GIBaseInfo* info, gint item)`), by
name. -/
inductive InfosItemGet
  | g_struct_info_get_field | g_struct_info_get_method
  | g_union_info_get_field | g_union_info_get_method
  | g_interface_info_get_prerequisite | g_interface_info_get_method
  | g_interface_info_get_constant | g_interface_info_get_property
  | g_interface_info_get_signal
  | g_object_info_get_interface | g_object_info_get_field
  | g_object_info_get_method | g_object_info_get_constant
  | g_object_info_get_property | g_object_info_get_signal
  deriving DecidableEq, Repr

/-- Modelled from the spec: the list of children each getter enumerates
(girepository, absent from src/). -/
def InfosItemGet.children (g : InfosItemGet) (n : GIBaseInfo) : List Ptr :=
  match g with
  | .g_struct_info_get_field | .g_union_info_get_field
  | .g_object_info_get_field => n.fields
  | .g_struct_info_get_method | .g_union_info_get_method
  | .g_interface_info_get_method | .g_object_info_get_method => n.methods
  | .g_interface_info_get_prerequisite => n.prerequisites
  | .g_interface_info_get_constant | .g_object_info_get_constant => n.constants
  | .g_interface_info_get_property | .g_object_info_get_property => n.properties
  | .g_interface_info_get_signal | .g_object_info_get_signal => n.signals
  | .g_object_info_get_interface => n.interfaces

/-- Modelled from the spec: calling a child getter, `item_get (info, item)`
(girepository, absent from src/).  It reads the node `info` points to (no
result for `NULL` or a dead address), and hands out a new reference to the
child at ordinal `item`, or `NULL` when there is none. -/
def InfosItemGet.call (g : InfosItemGet) (R : Heap) (info : Ptr) (item : Int) :
    Option (Ptr × Heap) :=
  match R.deref info with
  | none => none
  | some n =>
    if item < 0 then some (0, R)
    else some (transfer_full R ((g.children n).getD item.toNat 0))

/-! ## Lua side -/

/-- The `Infos` struct: a group of child infos of one node. -/
structure Infos where
  info : Ptr
  count : Int
  item_get : InfosItemGet
  deriving DecidableEq, Repr

/-- The contents of a userdata block allocated by `gi.c`. -/
inductive Userdata
  | info (p : Ptr)
  | infos (i : Infos)
  | ns (name : String)
  deriving DecidableEq, Repr

/-- The block read through a `GIBaseInfo **`: the pointer an info block
holds, the first member of an `Infos` block; the bytes of a namespace name
are no pointer. -/
def Userdata.asInfoPtr : Userdata → Option Ptr
  | .info p => some p
  | .infos i => some i.info
  | .ns _ => none

/-- The Lua values `gi.c` receives and produces.  The numbers it pushes are
integers converted to `lua_Number`, kept here as the integer.  A userdata
carries the registry name of its metatable. -/
inductive LuaValue
  | nil
  | boolean (b : Bool)
  | number (n : Int)
  | string (s : String)
  | userdata (tname : String) (block : Userdata)
  | table (items : List (Int × LuaValue))

/-- The errors the auxiliary library raises: `luaL_typerror` (from
`luaL_checkudata`) and `luaL_argerror`, each with the argument position. -/
inductive LuaError
  | typerror (narg : Nat) (tname : String)
  | argerror (narg : Nat) (extramsg : String)
  deriving DecidableEq, Repr

/-- What a call of a C function of `gi.c` ends in: the values it returns and
the foreign heap it leaves, a raised Lua error (the heap as it was when the
error was raised), a dereference of `NULL` or of a dead address in foreign
code, or `g_assert_not_reached`. -/
inductive Outcome
  | ret (vals : List LuaValue) (R : Heap)
  | raise (e : LuaError) (R : Heap)
  | fault
  | assert_not_reached

/-- `#define GI_INFOS "lgi.gi.infos"`. -/
def GI_INFOS : String := "lgi.gi.infos"

/-- `luaL_checkudata (L, narg, tname)`: the block of a userdata whose
metatable is the one registered as `tname`; anything else is a type error. -/
def luaL_checkudata (v : LuaValue) (tname : String) : Option Userdata :=
  match v with
  | .userdata mt block => if mt = tname then some block else none
  | _ => none

/-- A `gint`: the low 32 bits of an integer, read as two's complement. -/
def toGint (x : Int) : Int := (x + 2 ^ 31) % 2 ^ 32 - 2 ^ 31

/-- `lua_rawseti (L, -2, n)` on the table under construction: storing `nil`
leaves no entry. -/
def lua_rawseti (t : List (Int × LuaValue)) (n : Int) (v : LuaValue) :
    List (Int × LuaValue) :=
  match v with
  | .nil => t.filter (fun e => e.1 != n)
  | w => t.filter (fun e => e.1 != n) ++ [(n, w)]

/-! ## The C functions of gi.c

`GI_INFO`, the registry name of the metatable of info userdata, is defined in
`lgi.h`, which is not part of the sources at hand: every function that uses
it takes it as its first argument. -/

/-- `info_gc` (gi.c:16-22): checks that argument 1 is a userdata with the
`GI_INFO` metatable, then drops one reference of the node it points to. -/
def info_gc (GI_INFO : String) (R : Heap) (self : LuaValue) : Outcome :=
  match luaL_checkudata self GI_INFO with
  | none => .raise (.typerror 1 GI_INFO) R
  | some block =>
    match block.asInfoPtr with
    | none => .fault
    | some info =>
      match g_base_info_unref R info with
      | none => .fault
      | some R1 => .ret [] R1

/-- The value `info_new` pushes (gi.c:28-36): for a non-null pointer a new
userdata with the `GI_INFO` metatable holding the pointer as it is, otherwise
`nil`. -/
def info_new_value (GI_INFO : String) (info : Ptr) : LuaValue :=
  if info ≠ 0 then .userdata GI_INFO (.info info) else .nil

/-- `info_new` (gi.c:25-39): pushes that value and returns 1.  It calls
nothing of the repository, so the heap is the one it was given. -/
def info_new (GI_INFO : String) (R : Heap) (info : Ptr) : Outcome :=
  .ret [info_new_value GI_INFO info] R

/-- `infos_len` (gi.c:51-57): `infos->count + 1`, computed in `gint`. -/
def infos_len (R : Heap) (self : LuaValue) : Outcome :=
  match luaL_checkudata self GI_INFOS with
  | some (.infos infos) => .ret [.number (toGint (infos.count + 1))] R
  | some _ => .fault
  | none => .raise (.typerror 1 GI_INFOS) R

/-- `infos_index` (gi.c:59-66).  `key` is the `lua_Integer` that
`luaL_checkinteger (L, 2)` returns; `key - 1` is narrowed to the `gint n`. -/
def infos_index (GI_INFO : String) (R : Heap) (self : LuaValue) (key : Int) :
    Outcome :=
  match luaL_checkudata self GI_INFOS with
  | some (.infos infos) =>
    let n := toGint (key - 1)
    if n ≥ 0 ∧ n < infos.count then
      match infos.item_get.call R infos.info n with
      | none => .fault
      | some (child, R1) => info_new GI_INFO R1 child
    else .raise (.argerror 2 "out of bounds") R
  | some _ => .fault
  | none => .raise (.typerror 1 GI_INFOS) R

/-- `infos_new` (gi.c:69-79): a new userdata with the `GI_INFOS` metatable,
holding a new reference to `info`, the count and the child getter. -/
def infos_new (R : Heap) (info : Ptr) (count : Int) (item_get : InfosItemGet) :
    Outcome :=
  match g_base_info_ref R info with
  | none => .fault
  | some R1 => .ret [.userdata GI_INFOS (.infos ⟨info, count, item_get⟩)] R1

/-- The finalizer of collections: the `__gc` entry of `gi_infos_reg`
(gi.c:81-86), which is `info_gc`. -/
def gi_infos_reg_gc (GI_INFO : String) (R : Heap) (self : LuaValue) : Outcome :=
  info_gc GI_INFO R self

/-- The `switch` of the `type` attribute (gi.c:108-137): the name of each
kind listed by `H`; `none` is the `default` label. -/
def type_switch : GIInfoType → Option String
  | .FUNCTION => some "function"
  | .CALLBACK => some "callback"
  | .STRUCT => some "struct"
  | .BOXED => some "boxed"
  | .ENUM => some "enum"
  | .FLAGS => some "flags"
  | .OBJECT => some "object"
  | .INTERFACE => some "interface"
  | .CONSTANT => some "constant"
  | .ERROR_DOMAIN => some "error_domain"
  | .UNION => some "union"
  | .VALUE => some "value"
  | .SIGNAL => some "signal"
  | .VFUNC => some "vfunc"
  | .PROPERTY => some "property"
  | .FIELD => some "field"
  | .ARG => some "arg"
  | .TYPE => some "type"
  | .UNRESOLVED => some "unresolved"

/-- The `is_` attributes (gi.c:140-163): each `H(n1, n2)` is one
`else if (strcmp (prop, "is_" #n2) == 0)` returning `GI_IS_ ## n1 ## _INFO`,
in the order of the source. -/
def is_table : List (String × (GIInfoType → Bool)) :=
  [ ("is_arg", GI_IS_ARG_INFO),
    ("is_callable", GI_IS_CALLABLE_INFO),
    ("is_function", GI_IS_FUNCTION_INFO),
    ("is_signal", GI_IS_SIGNAL_INFO),
    ("is_vfunc", GI_IS_VFUNC_INFO),
    ("is_constant", GI_IS_CONSTANT_INFO),
    ("is_error_domain", GI_IS_ERROR_DOMAIN_INFO),
    ("is_field", GI_IS_FIELD_INFO),
    ("is_property", GI_IS_PROPERTY_INFO),
    ("is_registered_type", GI_IS_REGISTERED_TYPE_INFO),
    ("is_enum", GI_IS_ENUM_INFO),
    ("is_interface", GI_IS_INTERFACE_INFO),
    ("is_object", GI_IS_OBJECT_INFO),
    ("is_struct", GI_IS_STRUCT_INFO),
    ("is_union", GI_IS_UNION_INFO),
    ("is_type", GI_IS_TYPE_INFO),
    ("is_value", GI_IS_VALUE_INFO) ]

/-- The `switch` of the `array_type` attribute (gi.c:283-297). -/
def array_type_switch : GIArrayType → Option String
  | .C => some "c"
  | .ARRAY => some "array"
  | .PTR_ARRAY => some "ptr_array"
  | .BYTE_ARRAY => some "byte_array"

/-- The end of `info_index` (gi.c:301-302): the message is formatted from
`prop` and raised by `luaL_argerror` on argument 2. -/
def unsupported (R : Heap) (prop : String) : Outcome :=
  .raise (.argerror 2 ("unsupported info property `" ++ prop ++ "'")) R

/-- `return info_new (L, getter (*info))` for a getter that hands out a new
reference. -/
def return_info_new (GI_INFO : String) (R : Heap) (p : Ptr) : Outcome :=
  info_new GI_INFO (transfer_full R p).2 (transfer_full R p).1

/-- The branch of `info_index` for registered types (gi.c:200-207). -/
def registered_type_branch (R : Heap) (n : GIBaseInfo) (prop : String) : Outcome :=
  if prop = "gtype" then .ret [.number n.g_type] R
  else unsupported R prop

/-- The branch of `info_index` for enum and flag members (gi.c:208-215). -/
def value_branch (R : Heap) (n : GIBaseInfo) (prop : String) : Outcome :=
  if prop = "value" then .ret [.number n.value] R
  else unsupported R prop

/-- The branch of `info_index` for structs (gi.c:216-225). -/
def struct_branch (R : Heap) (info : Ptr) (n : GIBaseInfo) (prop : String) :
    Outcome :=
  if prop = "is_gtype_struct" then .ret [.boolean n.is_gtype_struct] R
  else if prop = "fields" then
    infos_new R info n.fields.length .g_struct_info_get_field
  else if prop = "methods" then
    infos_new R info n.methods.length .g_struct_info_get_method
  else unsupported R prop

/-- The branch of `info_index` for unions (gi.c:226-231). -/
def union_branch (R : Heap) (info : Ptr) (n : GIBaseInfo) (prop : String) :
    Outcome :=
  if prop = "fields" then
    infos_new R info n.fields.length .g_union_info_get_field
  else if prop = "methods" then
    infos_new R info n.methods.length .g_union_info_get_method
  else unsupported R prop

/-- The branch of `info_index` for interfaces (gi.c:232-240). -/
def interface_branch (R : Heap) (info : Ptr) (n : GIBaseInfo) (prop : String) :
    Outcome :=
  if prop = "prerequisites" then
    infos_new R info n.prerequisites.length .g_interface_info_get_prerequisite
  else if prop = "methods" then
    infos_new R info n.methods.length .g_interface_info_get_method
  else if prop = "constants" then
    infos_new R info n.constants.length .g_interface_info_get_constant
  else if prop = "properties" then
    infos_new R info n.properties.length .g_interface_info_get_property
  else if prop = "signals" then
    infos_new R info n.signals.length .g_interface_info_get_signal
  else unsupported R prop

/-- The branch of `info_index` for objects (gi.c:241-251). -/
def object_branch (GI_INFO : String) (R : Heap) (info : Ptr) (n : GIBaseInfo)
    (prop : String) : Outcome :=
  if prop = "parent" then return_info_new GI_INFO R n.parent
  else if prop = "interfaces" then
    infos_new R info n.interfaces.length .g_object_info_get_interface
  else if prop = "fields" then
    infos_new R info n.fields.length .g_object_info_get_field
  else if prop = "methods" then
    infos_new R info n.methods.length .g_object_info_get_method
  else if prop = "constants" then
    infos_new R info n.constants.length .g_object_info_get_constant
  else if prop = "properties" then
    infos_new R info n.properties.length .g_object_info_get_property
  else if prop = "signals" then
    infos_new R info n.signals.length .g_object_info_get_signal
  else unsupported R prop

/-- The branch of `info_index` for type expressions (gi.c:252-299). -/
def type_branch (GI_INFO : String) (R : Heap) (n : GIBaseInfo) (prop : String) :
    Outcome :=
  let tag := n.tag
  if prop = "tag" then .ret [.string (g_type_tag_to_string tag)] R
  else if prop = "param" then
    if tag = .ARRAY ∨ tag = .GLIST ∨ tag = .GSLIST ∨ tag = .GHASH then
      let p0 := transfer_full R (n.param_types.getD 0 0)
      let t1 := lua_rawseti [] 1 (info_new_value GI_INFO p0.1)
      if tag = .GHASH then
        let p1 := transfer_full p0.2 (n.param_types.getD 1 0)
        .ret [.table (lua_rawseti t1 2 (info_new_value GI_INFO p1.1))] p1.2
      else .ret [.table t1] p0.2
    else unsupported R prop
  else if prop = "interface" ∧ tag = .INTERFACE then
    return_info_new GI_INFO R n.interface
  else if prop = "array_type" ∧ tag = .ARRAY then
    match array_type_switch n.array_type with
    | some s => .ret [.string s] R
    | none => .assert_not_reached
  else unsupported R prop

/-- `info_index` (gi.c:88-306).  `self` is argument 1 and `prop` the C string
`luaL_checkstring (L, 2)` returns.  The chain of `if`/`else if` is kept in the
order of the source: the first condition that holds decides, and a branch
that returns nothing ends at the `unsupported` error of gi.c:301-302. -/
def info_index (GI_INFO : String) (R : Heap) (self : LuaValue) (prop : String) :
    Outcome :=
  match luaL_checkudata self GI_INFO with
  | none => .raise (.typerror 1 GI_INFO) R
  | some block =>
  match block.asInfoPtr with
  | none => .fault
  | some info =>
  match R.deref info with
  | none => .fault
  | some n =>
    if prop = "type" then
      match type_switch n.type with
      | some s => .ret [.string s] R
      | none => .assert_not_reached
    else match is_table.lookup prop with
    | some GI_IS => .ret [.boolean (GI_IS n.type)] R
    | none =>
    if prop = "name" then .ret [.string n.name] R
    else if prop = "namespace" then .ret [.string n.ns] R
    else if prop = "deprecated" then .ret [.boolean n.deprecated] R
    else if prop = "container" then
      let container := n.container
      match g_base_info_ref R container with
      | none => .fault
      | some R1 => info_new GI_INFO R1 container
    else if prop = "typeinfo" then
      let ti : Ptr × Heap :=
        if GI_IS_ARG_INFO n.type then transfer_full R n.typeinfo
        else if GI_IS_CONSTANT_INFO n.type then transfer_full R n.typeinfo
        else if GI_IS_PROPERTY_INFO n.type then transfer_full R n.typeinfo
        else if GI_IS_FIELD_INFO n.type then transfer_full R n.typeinfo
        else (0, R)
      if ti.1 ≠ 0 then info_new GI_INFO ti.2 ti.1
      else unsupported ti.2 prop
    else if GI_IS_REGISTERED_TYPE_INFO n.type then registered_type_branch R n prop
    else if GI_IS_VALUE_INFO n.type then value_branch R n prop
    else if GI_IS_STRUCT_INFO n.type then struct_branch R info n prop
    else if GI_IS_UNION_INFO n.type then union_branch R info n prop
    else if GI_IS_INTERFACE_INFO n.type then interface_branch R info n prop
    else if GI_IS_OBJECT_INFO n.type then object_branch GI_INFO R info n prop
    else if GI_IS_TYPE_INFO n.type then type_branch GI_INFO R n prop
    else unsupported R prop

/-! ## Namespaces -/

/-- Modelled from the spec: a `GError` as the load operations of the
repository set it (glib, absent from src/): a message and a code. -/
structure GError where
  message : String
  code : Int
  deriving DecidableEq, Repr

/-- Modelled from the spec: the repository service of spec §1, the part of
girepository that answers queries by namespace (absent from src/).  Each
field is one operation; `get_info` takes the ordinal as a `gint`; a pointer
result may be `NULL`; a load operation yields either a typelib or the error
it set.
* `get_n_infos` is `g_irepository_get_n_infos`, `getInfoCount` of the spec;
* `get_info` is `g_irepository_get_info`, `getInfoAt`;
* `get_dependencies` is `g_irepository_get_dependencies`;
* `get_version` is `g_irepository_get_version`;
* `find_by_name` is `g_irepository_find_by_name`, `findByName`;
* `require` is `g_irepository_require`, by namespace and version;
* `require_private` is `g_irepository_require_private`, by directory,
  namespace and version. -/
structure GIRepository where
  get_n_infos : String → Int
  get_info : String → Int → Ptr
  get_dependencies : String → Option (List String)
  get_version : String → Option String
  find_by_name : String → String → Ptr
  require : String → Option String → Except GError Unit
  require_private : String → String → Option String → Except GError Unit

/-- Modelled from the spec: `getInfoAt(namespace, index) -> InfoHandle`
(spec §1) yields an info, not `NULL`, for every ordinal below the info count
of the namespace. -/
def GIRepository.get_info_in_range (repo : GIRepository) (ns : String) : Prop :=
  ∀ i ∈ List.range (repo.get_n_infos ns).toNat, repo.get_info ns (Int.ofNat i) ≠ 0

instance (repo : GIRepository) (ns : String) :
    Decidable (repo.get_info_in_range ns) := by
  unfold GIRepository.get_info_in_range; infer_instance

/-- `#define GI_NAMESPACE "lgi.gi.namespace"`. -/
def GI_NAMESPACE : String := "lgi.gi.namespace"

/-- `lua_isnumber (L, 2)` and `lua_tointeger (L, 2)` together: the
`lua_Integer` of a key that is a number or a string convertible to a number,
`none` for a key that is not numeric.  `str2integer` is the coercion of
strings to numbers of the Lua core, which is not part of the sources at
hand: it is an argument of every function that needs it. -/
def lua_tointeger (str2integer : String → Option Int) : LuaValue → Option Int
  | .number k => some k
  | .string s => str2integer s
  | _ => none

/-- `lua_pushstring (L, s)`: a string, or `nil` for `NULL`. -/
def lua_pushstring : Option String → LuaValue
  | some s => .string s
  | none => .nil

/-- The loop of gi.c:343-348: the dependency `deps[i]` is stored at index
`i + 1` of a new table, the first one at `index`. -/
def push_dependencies (index : Int) : List String → List (Int × LuaValue)
  | [] => []
  | dep :: deps => (index, .string dep) :: push_dependencies (index + 1) deps

/-- `namespace_len` (gi.c:317-323): `g_irepository_get_n_infos (NULL, ns) + 1`,
computed in `gint`. -/
def namespace_len (repo : GIRepository) (R : Heap) (self : LuaValue) : Outcome :=
  match luaL_checkudata self GI_NAMESPACE with
  | some (.ns ns) => .ret [.number (toGint (repo.get_n_infos ns + 1))] R
  | some _ => .fault
  | none => .raise (.typerror 1 GI_NAMESPACE) R

/-- `namespace_index` (gi.c:325-362).  `self` is argument 1 and `key`
argument 2.  A numeric key is an ordinal: `lua_tointeger (L, 2) - 1` is passed
to `g_irepository_get_info` as a `gint`.  Any other key goes through
`luaL_checkstring`, which raises a type error unless it is a string. -/
def namespace_index (str2integer : String → Option Int) (GI_INFO : String)
    (repo : GIRepository) (R : Heap) (self : LuaValue) (key : LuaValue) :
    Outcome :=
  match luaL_checkudata self GI_NAMESPACE with
  | none => .raise (.typerror 1 GI_NAMESPACE) R
  | some (.ns ns) =>
    match lua_tointeger str2integer key with
    | some k =>
      return_info_new GI_INFO R (repo.get_info ns (toGint (k - 1)))
    | none =>
      match key with
      | .string prop =>
        if prop = "dependencies" then
          match repo.get_dependencies ns with
          | none => .ret [.nil] R
          | some deps => .ret [.table (push_dependencies 1 deps)] R
        else if prop = "version" then
          .ret [lua_pushstring (repo.get_version ns)] R
        else
          return_info_new GI_INFO R (repo.find_by_name ns prop)
      | _ => .raise (.typerror 2 "string") R
  | some _ => .fault

/-- `namespace_new` (gi.c:364-372): a new userdata with the `GI_NAMESPACE`
metatable holding a copy of the name. -/
def namespace_new (R : Heap) (ns : String) : Outcome :=
  .ret [.userdata GI_NAMESPACE (.ns ns)] R

/-- `gi_require` (gi.c:381-408).  `ns` is `luaL_checkstring (L, 1)`;
`version` and `typelib_dir` are `luaL_optstring (L, 2, NULL)` and
`luaL_optstring (L, 3, NULL)`, `none` for `NULL`. -/
def gi_require (repo : GIRepository) (R : Heap) (ns : String)
    (version typelib_dir : Option String) : Outcome :=
  let typelib :=
    match typelib_dir with
    | none => repo.require ns version
    | some dir => repo.require_private dir ns version
  match typelib with
  | .error err => .ret [.boolean false, .string err.message, .number err.code] R
  | .ok _ => namespace_new R ns

/-- The nineteen kinds, in the order of the `switch` of gi.c:115-133. -/
def all_kinds : List GIInfoType :=
  [ .FUNCTION, .CALLBACK, .STRUCT, .BOXED, .ENUM, .FLAGS, .OBJECT, .INTERFACE,
    .CONSTANT, .ERROR_DOMAIN, .UNION, .VALUE, .SIGNAL, .VFUNC, .PROPERTY,
    .FIELD, .ARG, .TYPE, .UNRESOLVED ]

/-- The names the `type` attribute can return: the names the `switch` gives
the kinds. -/
def type_names : List String := all_kinds.filterMap type_switch

/-! ## The attribute table of the specification (§4.4) -/

/-- The kind families of rule 2 of spec §4.4, spelled as in the attribute
names `is_<family>`. -/
def spec_families : List String :=
  [ "arg", "callable", "function", "signal", "vfunc", "constant",
    "error_domain", "field", "property", "registered_type", "enum",
    "interface", "object", "struct", "union", "type", "value" ]

/-- The legal (kind, attribute) pairs of spec §4.4, rule by rule, following
the words of the specification.  For a node of kind `type` the legality of
`param`, `interface` and `array_type` depends on its tag. -/
def legal_pair (k : GIInfoType) (tag : GITypeTag) (a : String) : Prop :=
  -- 1. universal attributes
  a ∈ ["type", "name", "namespace", "deprecated", "container"] ∨
  -- 2. kind-predicate booleans
  a ∈ spec_families.map (fun f => "is_" ++ f) ∨
  -- 3. typeinfo
  (a = "typeinfo" ∧ k ∈ [GIInfoType.ARG, .CONSTANT, .PROPERTY, .FIELD]) ∨
  -- 4. gtype
  (a = "gtype" ∧
    k ∈ [GIInfoType.STRUCT, .OBJECT, .ENUM, .FLAGS, .INTERFACE, .UNION, .BOXED]) ∨
  -- 5. value
  (a = "value" ∧ k = .VALUE) ∨
  -- 6. struct
  (k = .STRUCT ∧ a ∈ ["is_gtype_struct", "fields", "methods"]) ∨
  -- 7. union
  (k = .UNION ∧ a ∈ ["fields", "methods"]) ∨
  -- 8. interface
  (k = .INTERFACE ∧
    a ∈ ["prerequisites", "methods", "constants", "properties", "signals"]) ∨
  -- 9. object
  (k = .OBJECT ∧
    a ∈ ["parent", "interfaces", "fields", "methods", "constants", "properties",
         "signals"]) ∨
  -- 10. type expression
  (k = .TYPE ∧
    (a = "tag" ∨
     (a = "param" ∧ tag ∈ [GITypeTag.ARRAY, .GLIST, .GSLIST, .GHASH]) ∨
     (a = "interface" ∧ tag = .INTERFACE) ∨
     (a = "array_type" ∧ tag = .ARRAY)))

instance (k : GIInfoType) (tag : GITypeTag) (a : String) :
    Decidable (legal_pair k tag a) := by
  unfold legal_pair; infer_instance

/-- The members of each kind family, as the specification states them:
callable is function, callback, signal, vfunc; registered_type is struct,
boxed, enum, flags, interface, object, union; enum is enum, flags; every other
family is the single kind of that name. -/
def family_members : String → List GIInfoType
  | "arg" => [.ARG]
  | "callable" => [.FUNCTION, .CALLBACK, .SIGNAL, .VFUNC]
  | "function" => [.FUNCTION]
  | "signal" => [.SIGNAL]
  | "vfunc" => [.VFUNC]
  | "constant" => [.CONSTANT]
  | "error_domain" => [.ERROR_DOMAIN]
  | "field" => [.FIELD]
  | "property" => [.PROPERTY]
  | "registered_type" =>
      [.STRUCT, .BOXED, .ENUM, .FLAGS, .INTERFACE, .OBJECT, .UNION]
  | "enum" => [.ENUM, .FLAGS]
  | "interface" => [.INTERFACE]
  | "object" => [.OBJECT]
  | "struct" => [.STRUCT]
  | "union" => [.UNION]
  | "type" => [.TYPE]
  | "value" => [.VALUE]
  | _ => []

/-! ## Sample repository -/

/-- A node with every field at its neutral value, of kind `t`. -/
def mkInfo (t : GIInfoType) : GIBaseInfo :=
  { ref_count := 1, type := t, name := "", ns := "", deprecated := false,
    container := 0, typeinfo := 0, g_type := 0, value := 0,
    is_gtype_struct := false, parent := 0, fields := [], methods := [],
    prerequisites := [], interfaces := [], constants := [], properties := [],
    signals := [], tag := .OTHER "void", param_types := [], interface := 0,
    array_type := .C }

/-- The registry name `lgi.h` is taken to give the info metatable in the
sample runs; any name other than `GI_INFOS` behaves the same. -/
def sample_GI_INFO : String := "lgi.gi.info"

/-- A small repository: a struct `Point` (address 1) with two fields
(2, 3) and one method (4); a root object `Object` (5) and an object `Widget`
(6) whose parent is `Object`; an interface `Buildable` (7) with two methods
(4, 8) and one property (9); an argument (10) with no type info and one (11)
with the type expression at 12. -/
def sample_heap : Heap :=
  [ (1, { mkInfo .STRUCT with name := "Point", fields := [2, 3], methods := [4] }),
    (2, { mkInfo .FIELD with name := "x", container := 1, typeinfo := 12 }),
    (3, { mkInfo .FIELD with name := "y", container := 1, typeinfo := 12 }),
    (4, { mkInfo .FUNCTION with name := "copy", container := 1 }),
    (5, { mkInfo .OBJECT with name := "Object" }),
    (6, { mkInfo .OBJECT with name := "Widget", parent := 5 }),
    (7, { mkInfo .INTERFACE with
            name := "Buildable", methods := [4, 8], properties := [9] }),
    (8, { mkInfo .FUNCTION with name := "build", container := 7 }),
    (9, { mkInfo .PROPERTY with name := "id", container := 7, typeinfo := 12 }),
    (10, { mkInfo .ARG with name := "self" }),
    (11, { mkInfo .ARG with name := "n", typeinfo := 12 }),
    (12, { mkInfo .TYPE with tag := .OTHER "gint32" }) ]

/-- The info userdata of the sample runs for the node at `p`. -/
def sample_info (p : Ptr) : LuaValue := .userdata sample_GI_INFO (.info p)

/-- The coercion of strings to numbers in the sample runs: decimal digits
only. -/
def sample_str2integer (s : String) : Option Int :=
  if s.data ≠ [] ∧ s.data.all Char.isDigit = true then
    some (Int.ofNat (s.data.foldl (fun acc c => 10 * acc + (c.toNat - 48)) 0))
  else none

/-- A sample repository service over `sample_heap`: the namespace `GLib` has
the three top-level infos `Point` (1), `Object` (5) and `Widget` (6), depends
on `GObject` and has version `2.0`; nothing else is loaded.  `Gio` cannot be
loaded; the private load finds `GLib` only in the directory `/typelibs`. -/
def sample_repo : GIRepository :=
  { get_n_infos := fun ns => if ns = "GLib" then 3 else -1,
    get_info := fun ns i => if ns = "GLib" then [1, 5, 6].getD i.toNat 0 else 0,
    get_dependencies := fun ns => if ns = "GLib" then some ["GObject"] else none,
    get_version := fun ns => if ns = "GLib" then some "2.0" else none,
    find_by_name := fun ns name =>
      if ns = "GLib" then
        if name = "Point" then 1 else if name = "Object" then 5
        else if name = "Widget" then 6 else 0
      else 0,
    require := fun ns _ =>
      if ns = "GLib" then .ok ()
      else .error ⟨"Typelib file for namespace " ++ ns ++ " not found", 0⟩,
    require_private := fun dir ns _ =>
      if dir = "/typelibs" ∧ ns = "GLib" then .ok ()
      else .error ⟨"Typelib file for namespace " ++ ns ++ " not found", 0⟩ }

/-- Sample type expressions: an array of `utf8` (address 1), a hash table
from `utf8` to `gint32` (2), and the two element types `utf8` (3) and
`gint32` (4). -/
def sample_types : Heap :=
  [ (1, { mkInfo .TYPE with tag := .ARRAY, param_types := [3] }),
    (2, { mkInfo .TYPE with tag := .GHASH, param_types := [3, 4] }),
    (3, { mkInfo .TYPE with tag := .OTHER "utf8" }),
    (4, { mkInfo .TYPE with tag := .OTHER "gint32" }) ]

/-! ## Theorems -/

/-- C1 (code as it is): on the struct node `Point`, which has two fields and
one method, reading `fields`, `methods` and `is_gtype_struct` through
`info_index` raises the unsupported-property error each time: a struct is a
registered type, so the branch of gi.c:200 takes the node and the struct
branch of gi.c:216 is never reached. -/
theorem struct_attributes_unsupported :
    info_index sample_GI_INFO sample_heap (sample_info 1) "fields"
      = .raise (.argerror 2 "unsupported info property `fields'") sample_heap ∧
    info_index sample_GI_INFO sample_heap (sample_info 1) "methods"
      = .raise (.argerror 2 "unsupported info property `methods'") sample_heap ∧
    info_index sample_GI_INFO sample_heap (sample_info 1) "is_gtype_struct"
      = .raise (.argerror 2 "unsupported info property `is_gtype_struct'")
          sample_heap :=
  ⟨rfl, rfl, rfl⟩

/-- C2 (code as it is): reading `parent` through `info_index` raises the
unsupported-property error both on the root object `Object` (no parent) and
on `Widget`, whose parent the repository reports as `Object`: an object is a
registered type, so the object branch of gi.c:241 is never reached. -/
theorem object_parent_unsupported :
    info_index sample_GI_INFO sample_heap (sample_info 5) "parent"
      = .raise (.argerror 2 "unsupported info property `parent'") sample_heap ∧
    info_index sample_GI_INFO sample_heap (sample_info 6) "parent"
      = .raise (.argerror 2 "unsupported info property `parent'") sample_heap :=
  ⟨rfl, rfl⟩

/-- C3 (code as it is): on the interface node `Buildable`, with one property
and two methods, reading `properties` through `info_index` returns no
collection but raises the unsupported-property error: an interface is a
registered type, so the interface branch of gi.c:232 is never reached. -/
theorem interface_properties_unsupported :
    info_index sample_GI_INFO sample_heap (sample_info 7) "properties"
      = .raise (.argerror 2 "unsupported info property `properties'")
          sample_heap :=
  rfl

/-- The `is_` table has no entry for a name that is not `is_<family>`. -/
theorem is_table_lookup_none (a : String)
    (h : a ∉ spec_families.map (fun f => "is_" ++ f)) :
    is_table.lookup a = none := by
  simp only [spec_families, List.map, List.mem_cons, List.mem_singleton,
    List.not_mem_nil, or_false, not_or] at h
  obtain ⟨h1, h2, h3, h4, h5, h6, h7, h8, h9, h10, h11, h12, h13, h14, h15,
    h16, h17⟩ := h
  have key : ∀ s : String, ¬ a = "is_" ++ s → (a == "is_" ++ s) = false :=
    fun s hs => beq_eq_false_iff_ne.mpr hs
  have e1 := key _ h1
  have e2 := key _ h2
  have e3 := key _ h3
  have e4 := key _ h4
  have e5 := key _ h5
  have e6 := key _ h6
  have e7 := key _ h7
  have e8 := key _ h8
  have e9 := key _ h9
  have e10 := key _ h10
  have e11 := key _ h11
  have e12 := key _ h12
  have e13 := key _ h13
  have e14 := key _ h14
  have e15 := key _ h15
  have e16 := key _ h16
  have e17 := key _ h17
  simp only [String.reduceAppend] at e1 e2 e3 e4 e5 e6 e7 e8 e9 e10 e11 e12 e13 e14 e15 e16 e17
  simp only [is_table, List.lookup, e1, e2, e3, e4, e5, e6, e7, e8, e9, e10, e11,
    e12, e13, e14, e15, e16, e17]

/-- C4: for a node of kind `K` and an attribute name `a` such that `(K, a)` is
not a legal pair of the table of spec §4.4 (for a type node, legality of
`param`, `interface` and `array_type` depends on its tag), `info_index`
returns no value: it raises the argument error on argument 2 with the message
"unsupported info property" followed by exactly the name `a` in quotes, and
leaves the repository as it was. -/
theorem illegal_pair_unsupported (GI_INFO : String) (R : Heap) (info : Ptr)
    (n : GIBaseInfo) (a : String) (hn : R.deref info = some n)
    (h : ¬ legal_pair n.type n.tag a) :
    info_index GI_INFO R (.userdata GI_INFO (.info info)) a
      = .raise (.argerror 2 ("unsupported info property `" ++ a ++ "'")) R := by
  simp only [legal_pair, not_or] at h
  obtain ⟨hu, hf, hti, hgt, hv, hst, hun, hitf, hob, hty⟩ := h
  have hl := is_table_lookup_none a hf
  simp only [List.mem_cons, List.mem_singleton, List.not_mem_nil, or_false,
    not_or] at hu
  obtain ⟨u1, u2, u3, u4, u5⟩ := hu
  simp only [info_index, luaL_checkudata, if_true, Userdata.asInfoPtr, hn, hl,
    if_neg u1, if_neg u2, if_neg u3, if_neg u4, if_neg u5]
  by_cases hprop : a = "typeinfo"
  · subst hprop
    cases hk : n.type <;> simp_all [GI_IS_ARG_INFO, GI_IS_CONSTANT_INFO,
      GI_IS_PROPERTY_INFO, GI_IS_FIELD_INFO, unsupported]
  · simp only [if_neg hprop]
    cases hk : n.type <;>
      simp_all [GI_IS_REGISTERED_TYPE_INFO, GI_IS_VALUE_INFO, GI_IS_STRUCT_INFO,
        GI_IS_UNION_INFO, GI_IS_INTERFACE_INFO, GI_IS_OBJECT_INFO,
        GI_IS_TYPE_INFO, registered_type_branch, value_branch, type_branch,
        unsupported]
    split_ifs with c1 c2 c3
    · subst c1; rfl
    · exact absurd c2.2 (hty.2.2.1 c2.1)
    · exact absurd c3.2 (hty.2.2.2 c3.1)
    · rfl

/-- Applying C4 to the sample repository: `fields` on the function `copy`,
`param` on the type expression `gint32` (a tag that does not qualify) and
`gtype` on the argument `self` are not legal pairs, and each raises the
unsupported-property error naming the attribute. -/
theorem illegal_pair_unsupported_witness :
    (¬ legal_pair .FUNCTION (.OTHER "void") "fields" ∧
      info_index sample_GI_INFO sample_heap (sample_info 4) "fields"
        = .raise (.argerror 2 "unsupported info property `fields'") sample_heap) ∧
    (¬ legal_pair .TYPE (.OTHER "gint32") "param" ∧
      info_index sample_GI_INFO sample_heap (sample_info 12) "param"
        = .raise (.argerror 2 "unsupported info property `param'") sample_heap) ∧
    (¬ legal_pair .ARG (.OTHER "void") "gtype" ∧
      info_index sample_GI_INFO sample_heap (sample_info 10) "gtype"
        = .raise (.argerror 2 "unsupported info property `gtype'") sample_heap) :=
  ⟨⟨by decide,
     illegal_pair_unsupported sample_GI_INFO sample_heap 4 _ "fields" rfl (by decide)⟩,
   ⟨by decide,
     illegal_pair_unsupported sample_GI_INFO sample_heap 12 _ "param" rfl (by decide)⟩,
   ⟨by decide,
     illegal_pair_unsupported sample_GI_INFO sample_heap 10 _ "gtype" rfl (by decide)⟩⟩

/-- A value in the range of `gint` is its own narrowing. -/
theorem toGint_of_range (x : Int) (lo : -(2 ^ 31) ≤ x) (hi : x < 2 ^ 31) :
    toGint x = x := by
  unfold toGint
  omega

/-- C5: for a collection whose count `C` is non-negative and whose length
`C + 1` is still a `gint`: `infos_len` returns `C + 1`; for every index `i`
with `1 ≤ i ≤ C` (the parent being live) `infos_index` does not raise and
returns `info_new` of what the child getter yields for the parent at ordinal
`i - 1`; and `infos_index` raises the out-of-bounds argument error for
`i = 0` and for `i = C + 1`, the reported length. -/
theorem infos_len_and_index (GI_INFO : String) (R : Heap) (infos : Infos)
    (h0 : 0 ≤ infos.count) (hmax : infos.count < 2 ^ 31 - 1) :
    infos_len R (.userdata GI_INFOS (.infos infos))
      = .ret [.number (infos.count + 1)] R ∧
    (∀ n : GIBaseInfo, R.deref infos.info = some n →
      ∀ i : Int, 1 ≤ i → i ≤ infos.count →
        ∃ child R1, infos.item_get.call R infos.info (i - 1) = some (child, R1) ∧
          infos_index GI_INFO R (.userdata GI_INFOS (.infos infos)) i
            = info_new GI_INFO R1 child) ∧
    infos_index GI_INFO R (.userdata GI_INFOS (.infos infos)) 0
      = .raise (.argerror 2 "out of bounds") R ∧
    infos_index GI_INFO R (.userdata GI_INFOS (.infos infos)) (infos.count + 1)
      = .raise (.argerror 2 "out of bounds") R := by
  refine ⟨?_, ?_, ?_, ?_⟩
  · simp only [infos_len, luaL_checkudata, if_true]
    rw [toGint_of_range _ (by omega) (by omega)]
  · intro n hn i h1 h2
    have hg : toGint (i - 1) = i - 1 := toGint_of_range _ (by omega) (by omega)
    have hc : ¬ (i - 1 < 0) := by omega
    refine ⟨(transfer_full R ((infos.item_get.children n).getD (i - 1).toNat 0)).1,
      (transfer_full R ((infos.item_get.children n).getD (i - 1).toNat 0)).2, ?_, ?_⟩
    · simp only [InfosItemGet.call, hn, if_neg hc]
    · have hr : i - 1 ≥ 0 ∧ i - 1 < infos.count := by omega
      simp only [infos_index, luaL_checkudata, if_true, hg, if_pos hr,
        InfosItemGet.call, hn, if_neg hc]
  · have hg : toGint (0 - 1) = -1 := by decide
    have hr : ¬ ((-1 : Int) ≥ 0 ∧ (-1 : Int) < infos.count) := by omega
    simp only [infos_index, luaL_checkudata, if_true, hg, if_neg hr]
  · have hg : toGint (infos.count + 1 - 1) = infos.count :=
      by rw [show infos.count + 1 - 1 = infos.count by omega]
         exact toGint_of_range _ (by omega) (by omega)
    have hr : ¬ (infos.count ≥ 0 ∧ infos.count < infos.count) := by omega
    simp only [infos_index, luaL_checkudata, if_true, hg, if_neg hr]

/-- Applying C5 to a collection over the two fields of the sample struct
`Point`: the length is 3, index 1 yields the first field (address 2), and
the indices 0 and 3 are out of bounds. -/
theorem infos_len_and_index_witness :
    (0 : Int) ≤ 2 ∧ (2 : Int) < 2 ^ 31 - 1 ∧
    infos_len sample_heap (.userdata GI_INFOS (.infos ⟨1, 2, .g_struct_info_get_field⟩))
      = .ret [.number 3] sample_heap ∧
    (∃ child R1,
      InfosItemGet.call .g_struct_info_get_field sample_heap 1 (1 - 1)
        = some (child, R1) ∧
      infos_index sample_GI_INFO sample_heap
          (.userdata GI_INFOS (.infos ⟨1, 2, .g_struct_info_get_field⟩)) 1
        = info_new sample_GI_INFO R1 child) ∧
    infos_index sample_GI_INFO sample_heap
        (.userdata GI_INFOS (.infos ⟨1, 2, .g_struct_info_get_field⟩)) 0
      = .raise (.argerror 2 "out of bounds") sample_heap ∧
    infos_index sample_GI_INFO sample_heap
        (.userdata GI_INFOS (.infos ⟨1, 2, .g_struct_info_get_field⟩)) 3
      = .raise (.argerror 2 "out of bounds") sample_heap :=
  have w := infos_len_and_index sample_GI_INFO sample_heap
    ⟨1, 2, .g_struct_info_get_field⟩ (by decide) (by decide)
  ⟨by decide, by decide, w.1, w.2.1 _ rfl 1 (by decide) (by decide), w.2.2.1, w.2.2.2⟩

/-- C6 (code as it is): on a collection of count 2, the index `2 ^ 32 + 1`,
which is greater than the count, is not rejected: `key - 1` is narrowed to the
`gint` 0, the bounds check passes, the child getter is invoked at ordinal 0
and the first child (address 2) is returned, exactly as for index 1. -/
theorem infos_index_wraps_around :
    (4294967297 : Int) > 2 ∧
    infos_index sample_GI_INFO sample_heap
        (.userdata GI_INFOS (.infos ⟨1, 2, .g_struct_info_get_field⟩)) 4294967297
      = .ret [sample_info 2]
          (transfer_full sample_heap 2).2 ∧
    InfosItemGet.call .g_struct_info_get_field sample_heap 1 (toGint (4294967297 - 1))
      = some (2, (transfer_full sample_heap 2).2) ∧
    infos_index sample_GI_INFO sample_heap
        (.userdata GI_INFOS (.infos ⟨1, 2, .g_struct_info_get_field⟩)) 4294967297
      = infos_index sample_GI_INFO sample_heap
          (.userdata GI_INFOS (.infos ⟨1, 2, .g_struct_info_get_field⟩)) 1 :=
  ⟨by decide, rfl, rfl, rfl⟩

/-- The info finalizer rejects every collection userdata: whatever name
`lgi.h` gives `GI_INFO`, as long as it is not the name of the collection
metatable, `luaL_checkudata` raises the type error and no reference is
dropped. -/
theorem info_gc_rejects_infos (GI_INFO : String) (h : GI_INFO ≠ GI_INFOS)
    (R : Heap) (infos : Infos) :
    gi_infos_reg_gc GI_INFO R (.userdata GI_INFOS (.infos infos))
      = .raise (.typerror 1 GI_INFO) R := by
  simp only [gi_infos_reg_gc, info_gc, luaL_checkudata, if_neg (Ne.symm h)]

/-- C7 (code as it is): `infos_new` on the sample struct `Point` raises its
reference count from 1 to 2 and returns the collection; running the `__gc`
entry of `gi_infos_reg` on that collection raises a type error on argument 1
(it is `info_gc`, which asks for the `GI_INFO` metatable) and leaves the
count at 2: the reference taken by `infos_new` is never released. -/
theorem infos_finalizer_raises :
    ∃ R1 : Heap,
      infos_new sample_heap 1 2 .g_struct_info_get_field
        = .ret [.userdata GI_INFOS (.infos ⟨1, 2, .g_struct_info_get_field⟩)] R1 ∧
      sample_heap.refs 1 = some 1 ∧ R1.refs 1 = some 2 ∧
      gi_infos_reg_gc sample_GI_INFO R1
          (.userdata GI_INFOS (.infos ⟨1, 2, .g_struct_info_get_field⟩))
        = .raise (.typerror 1 sample_GI_INFO) R1 :=
  ⟨_, rfl, rfl, rfl, rfl⟩

/-- Storing at a live address makes the stored node the one found there. -/
theorem Heap.deref_store_same (R : Heap) (p : Ptr) (n m : GIBaseInfo)
    (h : R.deref p = some n) : (R.store p m).deref p = some m := by
  unfold Heap.deref at h ⊢
  by_cases hp : p = 0
  · simp [hp] at h
  · simp only [if_neg hp] at h ⊢
    induction R with
    | nil => simp [List.lookup] at h
    | cons e es ih =>
      obtain ⟨q, x⟩ := e
      by_cases hq : q = p
      · subst hq
        simp only [Heap.store, List.map_cons, if_true, List.lookup_cons, beq_self_eq_true]
      · have hb : (p == q) = false := beq_eq_false_iff_ne.mpr (Ne.symm hq)
        simp only [List.lookup_cons, hb] at h
        have := ih h
        simp only [Heap.store, List.map_cons, if_neg hq, List.lookup_cons, hb] at this ⊢
        exact this

/-- The second half of C8: for a node whose container is a live node,
reading `container` returns a wrapper of that container, and the
container's reference count is one more than before. -/
theorem container_wrapped_and_referenced (GI_INFO : String) (R : Heap)
    (info : Ptr) (n c : GIBaseInfo) (hn : R.deref info = some n)
    (hc : R.deref n.container = some c) :
    ∃ R1 : Heap,
      info_index GI_INFO R (.userdata GI_INFO (.info info)) "container"
        = .ret [.userdata GI_INFO (.info n.container)] R1 ∧
      R1.refs n.container = some (c.ref_count + 1) ∧
      R.refs n.container = some c.ref_count := by
  have hne : n.container ≠ 0 := by
    intro h0
    simp [Heap.deref, h0] at hc
  refine ⟨R.store n.container { c with ref_count := c.ref_count + 1 }, ?_, ?_, ?_⟩
  · have e1 : ¬ ("container" = "type") := by decide
    have e2 : is_table.lookup "container" = none := rfl
    have e3 : ¬ ("container" = "name") := by decide
    have e4 : ¬ ("container" = "namespace") := by decide
    have e5 : ¬ ("container" = "deprecated") := by decide
    simp only [info_index, luaL_checkudata, if_true, Userdata.asInfoPtr, hn,
      if_neg e1, e2, if_neg e3, if_neg e4, if_neg e5, g_base_info_ref, hc,
      info_new, info_new_value, if_pos hne]
  · simp only [Heap.refs, Heap.deref_store_same R _ c _ hc, Option.map]
  · simp only [Heap.refs, hc, Option.map]

/-- C8 (code as it is): the sample struct `Point` is a top-level node, its
container is `NULL`; reading `container` passes that `NULL` to
`g_base_info_ref` before `info_new` can test it, so the read ends in a
dereference of `NULL` instead of returning absent. -/
theorem container_of_top_level_node_faults :
    (sample_heap.deref 1).map (fun n => n.container) = some 0 ∧
    g_base_info_ref sample_heap 0 = none ∧
    info_new sample_GI_INFO sample_heap 0 = .ret [.nil] sample_heap ∧
    info_index sample_GI_INFO sample_heap (sample_info 1) "container" = .fault :=
  ⟨rfl, rfl, rfl, rfl⟩

/-- C9, the claim as stated fails: the sample argument `self` (address 10)
is of kind arg and the repository yields no type info for it; reading
`typeinfo` does not return absent but raises the unsupported-property
error. -/
theorem typeinfo_absent_raises :
    (sample_heap.deref 10).map (fun n => (n.type, n.typeinfo)) = some (.ARG, 0) ∧
    info_index sample_GI_INFO sample_heap (sample_info 10) "typeinfo"
      = .raise (.argerror 2 "unsupported info property `typeinfo'") sample_heap ∧
    info_index sample_GI_INFO sample_heap (sample_info 10) "typeinfo"
      ≠ .ret [.nil] sample_heap :=
  ⟨rfl, rfl, by
    intro h
    have e : info_index sample_GI_INFO sample_heap (sample_info 10) "typeinfo"
        = .raise (.argerror 2 "unsupported info property `typeinfo'") sample_heap := rfl
    rw [e] at h
    exact Outcome.noConfusion h⟩

/-- C9 as amended: for a node of kind arg, constant, property or field,
reading `typeinfo` returns the wrapped type-expression node when the
repository yields one (a non-null pointer), and raises the
unsupported-property error naming `typeinfo`, leaving the repository as it
was, when the repository yields none. -/
theorem typeinfo_wrapped_or_unsupported (GI_INFO : String) (R : Heap)
    (info : Ptr) (n : GIBaseInfo) (hn : R.deref info = some n)
    (hk : n.type = .ARG ∨ n.type = .CONSTANT ∨ n.type = .PROPERTY ∨ n.type = .FIELD) :
    (n.typeinfo ≠ 0 →
      info_index GI_INFO R (.userdata GI_INFO (.info info)) "typeinfo"
        = .ret [.userdata GI_INFO (.info n.typeinfo)] (transfer_full R n.typeinfo).2) ∧
    (n.typeinfo = 0 →
      info_index GI_INFO R (.userdata GI_INFO (.info info)) "typeinfo"
        = .raise (.argerror 2 "unsupported info property `typeinfo'") R) := by
  have e1 : ¬ ("typeinfo" = "type") := by decide
  have e2 : is_table.lookup "typeinfo" = none := rfl
  have e3 : ¬ ("typeinfo" = "name") := by decide
  have e4 : ¬ ("typeinfo" = "namespace") := by decide
  have e5 : ¬ ("typeinfo" = "deprecated") := by decide
  have e6 : ¬ ("typeinfo" = "container") := by decide
  have ht : ∀ p : Ptr, (transfer_full R p).1 = p := by
    intro p
    unfold transfer_full
    split <;> rfl
  have h0 : transfer_full R 0 = (0, R) := rfl
  have hti : (if GI_IS_ARG_INFO n.type = true then transfer_full R n.typeinfo
        else if GI_IS_CONSTANT_INFO n.type = true then transfer_full R n.typeinfo
        else if GI_IS_PROPERTY_INFO n.type = true then transfer_full R n.typeinfo
        else if GI_IS_FIELD_INFO n.type = true then transfer_full R n.typeinfo
        else (0, R)) = transfer_full R n.typeinfo := by
    rcases hk with hk | hk | hk | hk <;>
      simp [hk, GI_IS_ARG_INFO, GI_IS_CONSTANT_INFO, GI_IS_PROPERTY_INFO,
        GI_IS_FIELD_INFO]
  constructor
  · intro hp
    simp only [info_index, luaL_checkudata, if_true, Userdata.asInfoPtr, hn,
      if_neg e1, e2, if_neg e3, if_neg e4, if_neg e5, if_neg e6, hti, ht,
      ne_eq, hp, not_false_eq_true, if_pos, info_new, info_new_value]
  · intro hp
    simp only [info_index, luaL_checkudata, if_true, Userdata.asInfoPtr, hn,
      if_neg e1, e2, if_neg e3, if_neg e4, if_neg e5, if_neg e6, hti]
    simp only [hp, h0, ne_eq, not_true_eq_false, if_false, unsupported]
    rfl

/-- Applying the amended C9 to the sample repository: the argument `n`
(address 11) has the type expression at address 12, which is returned
wrapped; the argument `self` (address 10) has none, and the read raises. -/
theorem typeinfo_wrapped_or_unsupported_witness :
    info_index sample_GI_INFO sample_heap (sample_info 11) "typeinfo"
      = .ret [sample_info 12] (transfer_full sample_heap 12).2 ∧
    info_index sample_GI_INFO sample_heap (sample_info 10) "typeinfo"
      = .raise (.argerror 2 "unsupported info property `typeinfo'") sample_heap :=
  ⟨(typeinfo_wrapped_or_unsupported sample_GI_INFO sample_heap 11 _ rfl
      (Or.inl rfl)).1 (by decide),
   (typeinfo_wrapped_or_unsupported sample_GI_INFO sample_heap 10 _ rfl
      (Or.inl rfl)).2 rfl⟩

/-- An `is_` attribute is answered by the predicate the table gives it,
whatever the kind of the node. -/
theorem info_index_is (GI_INFO : String) (R : Heap) (info : Ptr)
    (n : GIBaseInfo) (hn : R.deref info = some n) (a : String)
    (GI_IS : GIInfoType → Bool) (ha : a ≠ "type")
    (hl : is_table.lookup a = some GI_IS) :
    info_index GI_INFO R (.userdata GI_INFO (.info info)) a
      = .ret [.boolean (GI_IS n.type)] R := by
  simp only [info_index, luaL_checkudata, if_true, Userdata.asInfoPtr, hn,
    if_neg ha, hl]

/-- C10: for every node, whatever its kind, and every family name `f` of the
seventeen, reading `is_f` through `info_index` returns one boolean, which is
true if and only if the kind of the node is a member of family `f` as the
specification lists the families; the repository is left as it was. -/
theorem is_family_iff_member (GI_INFO : String) (R : Heap) (info : Ptr)
    (n : GIBaseInfo) (hn : R.deref info = some n) (f : String)
    (hf : f ∈ spec_families) :
    info_index GI_INFO R (.userdata GI_INFO (.info info)) ("is_" ++ f)
      = .ret [.boolean (decide (n.type ∈ family_members f))] R := by
  simp only [spec_families, List.mem_cons, List.mem_singleton, List.not_mem_nil,
    or_false] at hf
  rcases hf with h | h | h | h | h | h | h | h | h | h | h | h | h | h | h | h | h <;>
    subst h
  · exact (info_index_is GI_INFO R info n hn "is_arg" GI_IS_ARG_INFO
      (by decide) rfl).trans (by cases n.type <;> rfl)
  · exact (info_index_is GI_INFO R info n hn "is_callable" GI_IS_CALLABLE_INFO
      (by decide) rfl).trans (by cases n.type <;> rfl)
  · exact (info_index_is GI_INFO R info n hn "is_function" GI_IS_FUNCTION_INFO
      (by decide) rfl).trans (by cases n.type <;> rfl)
  · exact (info_index_is GI_INFO R info n hn "is_signal" GI_IS_SIGNAL_INFO
      (by decide) rfl).trans (by cases n.type <;> rfl)
  · exact (info_index_is GI_INFO R info n hn "is_vfunc" GI_IS_VFUNC_INFO
      (by decide) rfl).trans (by cases n.type <;> rfl)
  · exact (info_index_is GI_INFO R info n hn "is_constant" GI_IS_CONSTANT_INFO
      (by decide) rfl).trans (by cases n.type <;> rfl)
  · exact (info_index_is GI_INFO R info n hn "is_error_domain" GI_IS_ERROR_DOMAIN_INFO
      (by decide) rfl).trans (by cases n.type <;> rfl)
  · exact (info_index_is GI_INFO R info n hn "is_field" GI_IS_FIELD_INFO
      (by decide) rfl).trans (by cases n.type <;> rfl)
  · exact (info_index_is GI_INFO R info n hn "is_property" GI_IS_PROPERTY_INFO
      (by decide) rfl).trans (by cases n.type <;> rfl)
  · exact (info_index_is GI_INFO R info n hn "is_registered_type" GI_IS_REGISTERED_TYPE_INFO
      (by decide) rfl).trans (by cases n.type <;> rfl)
  · exact (info_index_is GI_INFO R info n hn "is_enum" GI_IS_ENUM_INFO
      (by decide) rfl).trans (by cases n.type <;> rfl)
  · exact (info_index_is GI_INFO R info n hn "is_interface" GI_IS_INTERFACE_INFO
      (by decide) rfl).trans (by cases n.type <;> rfl)
  · exact (info_index_is GI_INFO R info n hn "is_object" GI_IS_OBJECT_INFO
      (by decide) rfl).trans (by cases n.type <;> rfl)
  · exact (info_index_is GI_INFO R info n hn "is_struct" GI_IS_STRUCT_INFO
      (by decide) rfl).trans (by cases n.type <;> rfl)
  · exact (info_index_is GI_INFO R info n hn "is_union" GI_IS_UNION_INFO
      (by decide) rfl).trans (by cases n.type <;> rfl)
  · exact (info_index_is GI_INFO R info n hn "is_type" GI_IS_TYPE_INFO
      (by decide) rfl).trans (by cases n.type <;> rfl)
  · exact (info_index_is GI_INFO R info n hn "is_value" GI_IS_VALUE_INFO
      (by decide) rfl).trans (by cases n.type <;> rfl)

/-- Applying C10 to the sample repository: the function `copy` (address 4)
is callable and not a registered type; the struct `Point` (address 1) is a
registered type and a struct, and not an enum. -/
theorem is_family_iff_member_witness :
    info_index sample_GI_INFO sample_heap (sample_info 4) "is_callable"
      = .ret [.boolean true] sample_heap ∧
    info_index sample_GI_INFO sample_heap (sample_info 4) "is_registered_type"
      = .ret [.boolean false] sample_heap ∧
    info_index sample_GI_INFO sample_heap (sample_info 1) "is_registered_type"
      = .ret [.boolean true] sample_heap ∧
    info_index sample_GI_INFO sample_heap (sample_info 1) "is_struct"
      = .ret [.boolean true] sample_heap ∧
    info_index sample_GI_INFO sample_heap (sample_info 1) "is_enum"
      = .ret [.boolean false] sample_heap :=
  ⟨is_family_iff_member sample_GI_INFO sample_heap 4 _ rfl "callable" (by decide),
   is_family_iff_member sample_GI_INFO sample_heap 4 _ rfl "registered_type" (by decide),
   is_family_iff_member sample_GI_INFO sample_heap 1 _ rfl "registered_type" (by decide),
   is_family_iff_member sample_GI_INFO sample_heap 1 _ rfl "struct" (by decide),
   is_family_iff_member sample_GI_INFO sample_heap 1 _ rfl "enum" (by decide)⟩

/-- Every kind is in the list of the nineteen kinds. -/
theorem mem_all_kinds (k : GIInfoType) : k ∈ all_kinds := by
  cases k <;> decide

/-- Reading `type` on a live node returns the name the `switch` gives its
kind, when it gives one. -/
theorem info_index_type (GI_INFO : String) (R : Heap) (info : Ptr)
    (n : GIBaseInfo) (hn : R.deref info = some n) (s : String)
    (hs : type_switch n.type = some s) :
    info_index GI_INFO R (.userdata GI_INFO (.info info)) "type"
      = .ret [.string s] R := by
  simp only [info_index, luaL_checkudata, if_true, Userdata.asInfoPtr, hn, hs]

/-- The `switch` gives every kind a name. -/
theorem type_switch_total (k : GIInfoType) : ∃ s, type_switch k = some s := by
  cases k <;> exact ⟨_, rfl⟩

/-- Two kinds with the same name are the same kind. -/
theorem type_switch_injective (k1 k2 : GIInfoType)
    (h : type_switch k1 = type_switch k2) : k1 = k2 := by
  cases k1 <;> cases k2 <;> first | rfl | exact absurd h (by decide)

/-- C11, the claim as stated fails: the names `type` can return are nineteen
pairwise different strings, not eighteen, and each of them is returned for a
node of the kind it names. -/
theorem type_names_are_nineteen :
    type_names.Nodup ∧ type_names.length = 19 ∧ type_names.length ≠ 18 ∧
    ∀ k ∈ all_kinds, ∃ s ∈ type_names,
      info_index sample_GI_INFO [(1, mkInfo k)] (sample_info 1) "type"
        = .ret [.string s] [(1, mkInfo k)] := by
  refine ⟨by decide, rfl, by decide, ?_⟩
  intro k _
  cases k <;> exact ⟨_, by decide, rfl⟩

/-- C11 as amended: for every live node, reading `type` through `info_index`
returns exactly one name; a string is returned for some node if and only if
it is one of the names of the `switch`; and these names are nineteen pairwise
different strings. -/
theorem type_returns_one_of_nineteen_names (GI_INFO : String) :
    (∀ (R : Heap) (info : Ptr) (n : GIBaseInfo), R.deref info = some n →
      ∃! s, info_index GI_INFO R (.userdata GI_INFO (.info info)) "type"
        = .ret [.string s] R) ∧
    (∀ s, s ∈ type_names ↔
      ∃ (R : Heap) (info : Ptr) (n : GIBaseInfo), R.deref info = some n ∧
        info_index GI_INFO R (.userdata GI_INFO (.info info)) "type"
          = .ret [.string s] R) ∧
    type_names.Nodup ∧ type_names.length = 19 := by
  refine ⟨?_, ?_, by decide, rfl⟩
  · intro R info n hn
    obtain ⟨s, hs⟩ := type_switch_total n.type
    refine ⟨s, info_index_type GI_INFO R info n hn s hs, ?_⟩
    intro t ht
    rw [info_index_type GI_INFO R info n hn s hs] at ht
    injection ht with hv _
    injection hv with hv _
    injection hv with hv
    exact hv.symm
  · intro s
    constructor
    · intro hs
      obtain ⟨k, _, hk⟩ := List.mem_filterMap.mp hs
      refine ⟨[(1, mkInfo k)], 1, mkInfo k, rfl, ?_⟩
      exact info_index_type GI_INFO [(1, mkInfo k)] 1 (mkInfo k) rfl s hk
    · rintro ⟨R, info, n, hn, h⟩
      obtain ⟨t, ht⟩ := type_switch_total n.type
      rw [info_index_type GI_INFO R info n hn t ht] at h
      injection h with hv _
      injection hv with hv _
      injection hv with hv
      subst hv
      exact List.mem_filterMap.mpr ⟨n.type, mem_all_kinds n.type, ht⟩

/-- Applying the amended C11 to the sample repository: `type` on the struct
`Point` returns the one name `struct`, which is one of the nineteen. -/
theorem type_returns_one_of_nineteen_names_witness :
    (∃! s, info_index sample_GI_INFO sample_heap (sample_info 1) "type"
      = .ret [.string s] sample_heap) ∧
    info_index sample_GI_INFO sample_heap (sample_info 1) "type"
      = .ret [.string "struct"] sample_heap ∧
    "struct" ∈ type_names :=
  ⟨(type_returns_one_of_nineteen_names sample_GI_INFO).1 sample_heap 1 _ rfl,
   rfl, by decide⟩

/-- C12: for every live node, reading `gtype` through `info_index` returns
the node's runtime type identifier as a number when the kind of the node is
struct, object, enum, flags, interface, union or boxed, and raises the
unsupported-property error naming `gtype` for every other kind; the
repository is left as it was in both cases. -/
theorem gtype_iff_registered (GI_INFO : String) (R : Heap) (info : Ptr)
    (n : GIBaseInfo) (hn : R.deref info = some n) :
    (n.type ∈ [GIInfoType.STRUCT, .OBJECT, .ENUM, .FLAGS, .INTERFACE, .UNION,
        .BOXED] →
      info_index GI_INFO R (.userdata GI_INFO (.info info)) "gtype"
        = .ret [.number n.g_type] R) ∧
    (n.type ∉ [GIInfoType.STRUCT, .OBJECT, .ENUM, .FLAGS, .INTERFACE, .UNION,
        .BOXED] →
      info_index GI_INFO R (.userdata GI_INFO (.info info)) "gtype"
        = .raise (.argerror 2 "unsupported info property `gtype'") R) := by
  have e1 : ¬ ("gtype" = "type") := by decide
  have e2 : is_table.lookup "gtype" = none := rfl
  have e3 : ¬ ("gtype" = "name") := by decide
  have e4 : ¬ ("gtype" = "namespace") := by decide
  have e5 : ¬ ("gtype" = "deprecated") := by decide
  have e6 : ¬ ("gtype" = "container") := by decide
  have e7 : ¬ ("gtype" = "typeinfo") := by decide
  have e8 : ¬ ("gtype" = "value") := by decide
  have e9 : ¬ ("gtype" = "tag") := by decide
  have e10 : ¬ ("gtype" = "param") := by decide
  have e11 : ¬ ("gtype" = "interface") := by decide
  have e12 : ¬ ("gtype" = "array_type") := by decide
  have hu : unsupported R "gtype"
      = .raise (.argerror 2 "unsupported info property `gtype'") R := rfl
  constructor
  · intro hk
    simp only [info_index, luaL_checkudata, if_true, Userdata.asInfoPtr, hn,
      if_neg e1, e2, if_neg e3, if_neg e4, if_neg e5, if_neg e6, if_neg e7]
    cases ht : n.type <;> simp_all [GI_IS_REGISTERED_TYPE_INFO, registered_type_branch]
  · intro hk
    simp only [info_index, luaL_checkudata, if_true, Userdata.asInfoPtr, hn,
      if_neg e1, e2, if_neg e3, if_neg e4, if_neg e5, if_neg e6, if_neg e7]
    cases ht : n.type <;>
      simp_all [GI_IS_REGISTERED_TYPE_INFO, GI_IS_VALUE_INFO, GI_IS_STRUCT_INFO,
        GI_IS_UNION_INFO, GI_IS_INTERFACE_INFO, GI_IS_OBJECT_INFO,
        GI_IS_TYPE_INFO, value_branch, type_branch]

/-- Applying C12: `gtype` on an enum `Color` whose type identifier is 4242
returns 4242, and on the function `copy` of the sample repository it
raises. -/
theorem gtype_iff_registered_witness :
    info_index sample_GI_INFO [(1, { mkInfo .ENUM with name := "Color", g_type := 4242 })]
        (sample_info 1) "gtype"
      = .ret [.number 4242] [(1, { mkInfo .ENUM with name := "Color", g_type := 4242 })] ∧
    info_index sample_GI_INFO sample_heap (sample_info 4) "gtype"
      = .raise (.argerror 2 "unsupported info property `gtype'") sample_heap :=
  ⟨(gtype_iff_registered sample_GI_INFO
      [(1, { mkInfo .ENUM with name := "Color", g_type := 4242 })] 1 _ rfl).1 (by decide),
   (gtype_iff_registered sample_GI_INFO sample_heap 4 _ rfl).2 (by decide)⟩

/-- A getter that hands out a new reference returns the pointer as it is. -/
theorem transfer_full_fst (R : Heap) (p : Ptr) : (transfer_full R p).1 = p := by
  unfold transfer_full
  split <;> rfl

/-- On a live node of kind `type`, `param` is answered by the branch for type
expressions. -/
theorem info_index_param (GI_INFO : String) (R : Heap) (info : Ptr)
    (n : GIBaseInfo) (hn : R.deref info = some n) (hk : n.type = .TYPE) :
    info_index GI_INFO R (.userdata GI_INFO (.info info)) "param"
      = type_branch GI_INFO R n "param" := by
  have e1 : ¬ ("param" = "type") := by decide
  have e2 : is_table.lookup "param" = none := rfl
  have e3 : ¬ ("param" = "name") := by decide
  have e4 : ¬ ("param" = "namespace") := by decide
  have e5 : ¬ ("param" = "deprecated") := by decide
  have e6 : ¬ ("param" = "container") := by decide
  have e7 : ¬ ("param" = "typeinfo") := by decide
  simp [info_index, luaL_checkudata, Userdata.asInfoPtr, hn, e2, hk,
    GI_IS_REGISTERED_TYPE_INFO, GI_IS_VALUE_INFO, GI_IS_STRUCT_INFO,
    GI_IS_UNION_INFO, GI_IS_INTERFACE_INFO, GI_IS_OBJECT_INFO, GI_IS_TYPE_INFO]

/-- C13: for every live node of kind `type`, reading `param` through
`info_index` succeeds exactly for the tags array, glist, gslist and ghash.
For array, glist and gslist it returns a table whose element 1 is the wrapped
parameter type 0 (a table of exactly that one entry when the parameter type
is present).  For ghash element 1 is the wrapped parameter type 0 and element
2 the wrapped parameter type 1 (a table of exactly these two entries, in this
order, when both are present).  For every other tag it raises the
unsupported-property error naming `param`. -/
theorem param_of_type_node (GI_INFO : String) (R : Heap) (info : Ptr)
    (n : GIBaseInfo) (hn : R.deref info = some n) (hk : n.type = .TYPE) :
    ((n.tag = .ARRAY ∨ n.tag = .GLIST ∨ n.tag = .GSLIST) →
      info_index GI_INFO R (.userdata GI_INFO (.info info)) "param"
        = .ret [.table (lua_rawseti [] 1
              (info_new_value GI_INFO (n.param_types.getD 0 0)))]
            (transfer_full R (n.param_types.getD 0 0)).2 ∧
      (n.param_types.getD 0 0 ≠ 0 →
        info_index GI_INFO R (.userdata GI_INFO (.info info)) "param"
          = .ret [.table [(1, .userdata GI_INFO (.info (n.param_types.getD 0 0)))]]
              (transfer_full R (n.param_types.getD 0 0)).2)) ∧
    (n.tag = .GHASH →
      info_index GI_INFO R (.userdata GI_INFO (.info info)) "param"
        = .ret [.table (lua_rawseti
              (lua_rawseti [] 1 (info_new_value GI_INFO (n.param_types.getD 0 0)))
              2 (info_new_value GI_INFO (n.param_types.getD 1 0)))]
            (transfer_full (transfer_full R (n.param_types.getD 0 0)).2
              (n.param_types.getD 1 0)).2 ∧
      (n.param_types.getD 0 0 ≠ 0 → n.param_types.getD 1 0 ≠ 0 →
        info_index GI_INFO R (.userdata GI_INFO (.info info)) "param"
          = .ret [.table [(1, .userdata GI_INFO (.info (n.param_types.getD 0 0))),
                          (2, .userdata GI_INFO (.info (n.param_types.getD 1 0)))]]
              (transfer_full (transfer_full R (n.param_types.getD 0 0)).2
                (n.param_types.getD 1 0)).2)) ∧
    (n.tag ∉ [GITypeTag.ARRAY, .GLIST, .GSLIST, .GHASH] →
      info_index GI_INFO R (.userdata GI_INFO (.info info)) "param"
        = .raise (.argerror 2 "unsupported info property `param'") R) := by
  rw [info_index_param GI_INFO R info n hn hk]
  have e1 : ¬ ("param" = "tag") := by decide
  refine ⟨?_, ?_, ?_⟩
  · intro ht
    have h4 : n.tag = .ARRAY ∨ n.tag = .GLIST ∨ n.tag = .GSLIST ∨ n.tag = .GHASH := by
      rcases ht with h | h | h <;> simp [h]
    have hg : ¬ n.tag = .GHASH := by
      rcases ht with h | h | h <;> simp [h]
    have e : type_branch GI_INFO R n "param"
        = .ret [.table (lua_rawseti [] 1
              (info_new_value GI_INFO (n.param_types.getD 0 0)))]
            (transfer_full R (n.param_types.getD 0 0)).2 := by
      simp only [type_branch, if_neg e1, if_true, if_pos h4, if_neg hg,
        transfer_full_fst]
    refine ⟨e, ?_⟩
    intro h0
    have v0 : info_new_value GI_INFO (n.param_types.getD 0 0)
        = .userdata GI_INFO (.info (n.param_types.getD 0 0)) := by
      simp only [info_new_value, if_pos h0]
    rw [e, v0]
    rfl
  · intro ht
    have h4 : n.tag = .ARRAY ∨ n.tag = .GLIST ∨ n.tag = .GSLIST ∨ n.tag = .GHASH :=
      Or.inr (Or.inr (Or.inr ht))
    have e : type_branch GI_INFO R n "param"
        = .ret [.table (lua_rawseti
              (lua_rawseti [] 1 (info_new_value GI_INFO (n.param_types.getD 0 0)))
              2 (info_new_value GI_INFO (n.param_types.getD 1 0)))]
            (transfer_full (transfer_full R (n.param_types.getD 0 0)).2
              (n.param_types.getD 1 0)).2 := by
      simp only [type_branch, if_neg e1, if_true, if_pos h4, if_pos ht,
        transfer_full_fst]
    refine ⟨e, ?_⟩
    intro h0 h1
    have v0 : info_new_value GI_INFO (n.param_types.getD 0 0)
        = .userdata GI_INFO (.info (n.param_types.getD 0 0)) := by
      simp only [info_new_value, if_pos h0]
    have v1 : info_new_value GI_INFO (n.param_types.getD 1 0)
        = .userdata GI_INFO (.info (n.param_types.getD 1 0)) := by
      simp only [info_new_value, if_pos h1]
    rw [e, v0, v1]
    rfl
  · intro ht
    have h4 : ¬ (n.tag = .ARRAY ∨ n.tag = .GLIST ∨ n.tag = .GSLIST ∨ n.tag = .GHASH) := by
      simpa using ht
    simp only [type_branch, if_neg e1, if_true, if_neg h4, unsupported]
    rfl

/-- Applying C13 to the sample type expressions: `param` on the array is the
one-element table holding the wrapped `utf8` type, on the hash table it is
the two-element table holding the wrapped key type then the wrapped value
type, and on `utf8` itself it raises. -/
theorem param_of_type_node_witness :
    (∃ R1, info_index sample_GI_INFO sample_types (sample_info 1) "param"
      = .ret [.table [(1, sample_info 3)]] R1) ∧
    (∃ R2, info_index sample_GI_INFO sample_types (sample_info 2) "param"
      = .ret [.table [(1, sample_info 3), (2, sample_info 4)]] R2) ∧
    info_index sample_GI_INFO sample_types (sample_info 3) "param"
      = .raise (.argerror 2 "unsupported info property `param'") sample_types :=
  ⟨⟨_, ((param_of_type_node sample_GI_INFO sample_types 1 _ rfl rfl).1
      (Or.inl rfl)).2 (by decide)⟩,
   ⟨_, ((param_of_type_node sample_GI_INFO sample_types 2 _ rfl rfl).2.1 rfl).2
      (by decide) (by decide)⟩,
   (param_of_type_node sample_GI_INFO sample_types 3 _ rfl rfl).2.2 (by decide)⟩

/-- C14: `info_new` returns absent (`nil`) if and only if the pointer is
`NULL`; for a non-null pointer it returns a wrapper holding exactly that
pointer; in both cases it returns one value and leaves the repository, and
so every reference count, as it was. -/
theorem info_new_absent_iff_null (GI_INFO : String) (R : Heap) (info : Ptr) :
    (info_new GI_INFO R info = .ret [.nil] R ↔ info = 0) ∧
    (info ≠ 0 → info_new GI_INFO R info = .ret [.userdata GI_INFO (.info info)] R) ∧
    (∃ v, info_new GI_INFO R info = .ret [v] R) ∧
    (∀ R1 vals, info_new GI_INFO R info = .ret vals R1 →
      ∀ p, R1.refs p = R.refs p) := by
  refine ⟨?_, ?_, ⟨_, rfl⟩, ?_⟩
  · constructor
    · intro h
      by_contra hne
      simp only [info_new, info_new_value, ne_eq, hne, not_false_eq_true, if_true] at h
      injection h with hv _
      injection hv with hv _
      exact LuaValue.noConfusion hv
    · intro h
      subst h
      rfl
  · intro h
    simp only [info_new, info_new_value, ne_eq, h, not_false_eq_true, if_true]
  · intro R1 vals h p
    simp only [info_new] at h
    injection h with _ hR
    rw [hR]

/-- Applying C14: the null pointer gives `nil`, the pointer 5 gives a wrapper
of 5, and the sample repository is unchanged. -/
theorem info_new_absent_iff_null_witness :
    info_new sample_GI_INFO sample_heap 0 = .ret [.nil] sample_heap ∧
    info_new sample_GI_INFO sample_heap 5 = .ret [sample_info 5] sample_heap :=
  ⟨(info_new_absent_iff_null sample_GI_INFO sample_heap 0).1.mpr rfl,
   (info_new_absent_iff_null sample_GI_INFO sample_heap 5).2.1 (by decide)⟩

/-- C15: for every namespace handle and every string key that is not numeric
and is neither `dependencies` nor `version`, `namespace_index` returns
`info_new` of what `find_by_name` yields for the namespace and the key:
absent when the symbol is not found, a wrapper of the found node otherwise,
and never a raised error.  For the keys `dependencies` and `version` the
result is the same whatever `find_by_name` is: it is not consulted. -/
theorem namespace_index_symbol (str2integer : String → Option Int)
    (GI_INFO : String) (repo : GIRepository) (R : Heap) (ns key : String)
    (hnum : str2integer key = none) (hd : key ≠ "dependencies")
    (hv : key ≠ "version") :
    namespace_index str2integer GI_INFO repo R (.userdata GI_NAMESPACE (.ns ns))
        (.string key)
      = info_new GI_INFO (transfer_full R (repo.find_by_name ns key)).2
          (repo.find_by_name ns key) ∧
    (repo.find_by_name ns key = 0 →
      namespace_index str2integer GI_INFO repo R (.userdata GI_NAMESPACE (.ns ns))
          (.string key)
        = .ret [.nil] R) ∧
    (repo.find_by_name ns key ≠ 0 →
      namespace_index str2integer GI_INFO repo R (.userdata GI_NAMESPACE (.ns ns))
          (.string key)
        = .ret [.userdata GI_INFO (.info (repo.find_by_name ns key))]
            (transfer_full R (repo.find_by_name ns key)).2) ∧
    (∀ e R1,
      namespace_index str2integer GI_INFO repo R (.userdata GI_NAMESPACE (.ns ns))
          (.string key)
        ≠ .raise e R1) ∧
    (∀ f : String → String → Ptr,
      namespace_index str2integer GI_INFO { repo with find_by_name := f } R
          (.userdata GI_NAMESPACE (.ns ns)) (.string "dependencies")
        = namespace_index str2integer GI_INFO repo R
            (.userdata GI_NAMESPACE (.ns ns)) (.string "dependencies") ∧
      namespace_index str2integer GI_INFO { repo with find_by_name := f } R
          (.userdata GI_NAMESPACE (.ns ns)) (.string "version")
        = namespace_index str2integer GI_INFO repo R
            (.userdata GI_NAMESPACE (.ns ns)) (.string "version")) := by
  have e : namespace_index str2integer GI_INFO repo R
      (.userdata GI_NAMESPACE (.ns ns)) (.string key)
      = info_new GI_INFO (transfer_full R (repo.find_by_name ns key)).2
          (repo.find_by_name ns key) := by
    simp only [namespace_index, luaL_checkudata, if_true, lua_tointeger, hnum,
      if_neg hd, if_neg hv, return_info_new, transfer_full_fst]
  refine ⟨e, ?_, ?_, ?_, ?_⟩
  · intro h0
    rw [e, h0]
    rfl
  · intro h0
    rw [e]
    simp only [info_new, info_new_value, ne_eq, h0, not_false_eq_true, if_true]
  · intro err R1 h
    rw [e] at h
    exact Outcome.noConfusion h
  · intro f
    constructor
    · cases hk : str2integer "dependencies" <;>
        simp [namespace_index, luaL_checkudata, lua_tointeger, hk]
    · cases hk : str2integer "version" <;>
        simp [namespace_index, luaL_checkudata, lua_tointeger, hk]

/-- Applying C15 to the sample repository: in `GLib` the symbol `Widget` is
found at address 6 and returned wrapped; the symbol `Missing` is not found
and the result is absent. -/
theorem namespace_index_symbol_witness :
    (∃ R1, namespace_index sample_str2integer sample_GI_INFO sample_repo sample_heap
        (.userdata GI_NAMESPACE (.ns "GLib")) (.string "Widget")
      = .ret [sample_info 6] R1) ∧
    namespace_index sample_str2integer sample_GI_INFO sample_repo sample_heap
        (.userdata GI_NAMESPACE (.ns "GLib")) (.string "Missing")
      = .ret [.nil] sample_heap :=
  ⟨⟨_, (namespace_index_symbol sample_str2integer sample_GI_INFO sample_repo
      sample_heap "GLib" "Widget" (by decide) (by decide) (by decide)).2.2.1
      (by decide)⟩,
   (namespace_index_symbol sample_str2integer sample_GI_INFO sample_repo
      sample_heap "GLib" "Missing" (by decide) (by decide) (by decide)).2.1 rfl⟩

/-- A numeric key is an ordinal: `namespace_index` returns `info_new` of what
`get_info` yields at `lua_tointeger (L, 2) - 1`, narrowed to the `gint` the
repository takes. -/
theorem namespace_index_numeric (str2integer : String → Option Int)
    (GI_INFO : String) (repo : GIRepository) (R : Heap) (ns : String)
    (key : LuaValue) (k : Int) (hk : lua_tointeger str2integer key = some k) :
    namespace_index str2integer GI_INFO repo R (.userdata GI_NAMESPACE (.ns ns)) key
      = info_new GI_INFO (transfer_full R (repo.get_info ns (toGint (k - 1)))).2
          (repo.get_info ns (toGint (k - 1))) := by
  simp only [namespace_index, luaL_checkudata, if_true, hk, return_info_new,
    transfer_full_fst]

/-- C17: `gi_require` uses `require` when no search path is given and
`require_private`, with the search path, when one is given, and in each case
its result does not depend on the other load operation.  When the load fails
the result is the three values `false`, the message of the error and its
code; when it succeeds the result is one namespace handle holding the
namespace name.  No error is raised and the repository heap is left as it
was. -/
theorem gi_require_result (repo : GIRepository) (R : Heap) (ns : String)
    (version : Option String) :
    (gi_require repo R ns version none
      = match repo.require ns version with
        | .error err =>
            .ret [.boolean false, .string err.message, .number err.code] R
        | .ok _ => .ret [.userdata GI_NAMESPACE (.ns ns)] R) ∧
    (∀ dir : String, gi_require repo R ns version (some dir)
      = match repo.require_private dir ns version with
        | .error err =>
            .ret [.boolean false, .string err.message, .number err.code] R
        | .ok _ => .ret [.userdata GI_NAMESPACE (.ns ns)] R) ∧
    (∀ f, gi_require { repo with require_private := f } R ns version none
      = gi_require repo R ns version none) ∧
    (∀ f dir, gi_require { repo with require := f } R ns version (some dir)
      = gi_require repo R ns version (some dir)) ∧
    (∀ typelib_dir e R1, gi_require repo R ns version typelib_dir ≠ .raise e R1) := by
  refine ⟨?_, ?_, ?_, ?_, ?_⟩
  · simp only [gi_require, namespace_new]
  · intro dir
    simp only [gi_require, namespace_new]
  · intro f
    rfl
  · intro f dir
    rfl
  · intro typelib_dir e R1 h
    cases typelib_dir with
    | none =>
      simp only [gi_require, namespace_new] at h
      cases hr : repo.require ns version <;> rw [hr] at h <;>
        exact Outcome.noConfusion h
    | some dir =>
      simp only [gi_require, namespace_new] at h
      cases hr : repo.require_private dir ns version <;> rw [hr] at h <;>
        exact Outcome.noConfusion h

/-- Applying C17 to the sample repository: `Gio` cannot be loaded and the
result is the triple of `false`, the message and the code; `GLib` loads and
the result is a handle named `GLib`, through the plain load without search
path and through the private load with the search path `/typelibs`. -/
theorem gi_require_result_witness :
    gi_require sample_repo sample_heap "Gio" none none
      = .ret [.boolean false, .string "Typelib file for namespace Gio not found",
              .number 0] sample_heap ∧
    gi_require sample_repo sample_heap "GLib" (some "2.0") none
      = .ret [.userdata GI_NAMESPACE (.ns "GLib")] sample_heap ∧
    gi_require sample_repo sample_heap "GLib" none (some "/typelibs")
      = .ret [.userdata GI_NAMESPACE (.ns "GLib")] sample_heap ∧
    gi_require sample_repo sample_heap "GLib" none (some "/nowhere")
      = .ret [.boolean false, .string "Typelib file for namespace GLib not found",
              .number 0] sample_heap :=
  ⟨(gi_require_result sample_repo sample_heap "Gio" none).1,
   (gi_require_result sample_repo sample_heap "GLib" (some "2.0")).1,
   (gi_require_result sample_repo sample_heap "GLib" none).2.1 "/typelibs",
   (gi_require_result sample_repo sample_heap "GLib" none).2.1 "/nowhere"⟩

/-- C18: the `switch` of the `type` attribute gives each of the nineteen
kinds a name, so for every live node reading `type` through `info_index`
returns a name and does not end in `g_assert_not_reached`; and the names are
pairwise different: two nodes get the same `type` string if and only if they
have the same kind. -/
theorem type_total_and_injective (GI_INFO : String) (R1 R2 : Heap)
    (i1 i2 : Ptr) (n1 n2 : GIBaseInfo) (h1 : R1.deref i1 = some n1)
    (h2 : R2.deref i2 = some n2) :
    (∀ k ∈ all_kinds, type_switch k ≠ none) ∧ all_kinds.length = 19 ∧
    info_index GI_INFO R1 (.userdata GI_INFO (.info i1)) "type"
      ≠ .assert_not_reached ∧
    ∃ s1 s2,
      info_index GI_INFO R1 (.userdata GI_INFO (.info i1)) "type"
        = .ret [.string s1] R1 ∧
      info_index GI_INFO R2 (.userdata GI_INFO (.info i2)) "type"
        = .ret [.string s2] R2 ∧
      (s1 = s2 ↔ n1.type = n2.type) := by
  obtain ⟨s1, hs1⟩ := type_switch_total n1.type
  obtain ⟨s2, hs2⟩ := type_switch_total n2.type
  have e1 := info_index_type GI_INFO R1 i1 n1 h1 s1 hs1
  have e2 := info_index_type GI_INFO R2 i2 n2 h2 s2 hs2
  refine ⟨?_, rfl, ?_, s1, s2, e1, e2, ?_⟩
  · intro k _ hk
    obtain ⟨s, hs⟩ := type_switch_total k
    rw [hk] at hs
    exact Option.noConfusion hs
  · rw [e1]
    exact fun h => Outcome.noConfusion h
  · constructor
    · intro h
      apply type_switch_injective
      rw [hs1, hs2, h]
    · intro h
      rw [h, hs2] at hs1
      injection hs1 with h'
      exact h'.symm

/-- Applying C18 to the sample repository: the struct `Point` and the object
`Widget` get the different names `struct` and `object`; the objects `Object`
and `Widget` get the same name. -/
theorem type_total_and_injective_witness :
    info_index sample_GI_INFO sample_heap (sample_info 1) "type"
      ≠ .assert_not_reached ∧
    (∃ s1 s2,
      info_index sample_GI_INFO sample_heap (sample_info 1) "type"
        = .ret [.string s1] sample_heap ∧
      info_index sample_GI_INFO sample_heap (sample_info 6) "type"
        = .ret [.string s2] sample_heap ∧
      (s1 = s2 ↔ GIInfoType.STRUCT = GIInfoType.OBJECT)) ∧
    info_index sample_GI_INFO sample_heap (sample_info 5) "type"
      = info_index sample_GI_INFO sample_heap (sample_info 6) "type" :=
  have w := type_total_and_injective sample_GI_INFO sample_heap sample_heap 1 6
    _ _ rfl rfl
  ⟨w.2.2.1, w.2.2.2, rfl⟩

/-- C19: for every live node whose kind is struct, boxed, enum, flags,
interface, object or union, and every attribute name other than `type`,
`name`, `namespace`, `deprecated`, `container`, the seventeen `is_<family>`
names and `gtype`, `info_index` raises the unsupported-property error naming
the attribute.  The conditions of the struct, union, interface and object
branches each imply the condition of the registered-type branch, which comes
first in the chain, so none of the four is ever entered. -/
theorem registered_type_only_gtype (GI_INFO : String) (R : Heap) (info : Ptr)
    (n : GIBaseInfo) (a : String) (hn : R.deref info = some n)
    (hk : n.type ∈ [GIInfoType.STRUCT, .BOXED, .ENUM, .FLAGS, .INTERFACE,
      .OBJECT, .UNION])
    (hu : a ∉ ["type", "name", "namespace", "deprecated", "container"])
    (hf : a ∉ spec_families.map (fun f => "is_" ++ f)) (hg : a ≠ "gtype") :
    info_index GI_INFO R (.userdata GI_INFO (.info info)) a
      = .raise (.argerror 2 ("unsupported info property `" ++ a ++ "'")) R ∧
    (∀ t : GIInfoType,
      GI_IS_STRUCT_INFO t = true ∨ GI_IS_UNION_INFO t = true ∨
        GI_IS_INTERFACE_INFO t = true ∨ GI_IS_OBJECT_INFO t = true →
      GI_IS_REGISTERED_TYPE_INFO t = true) := by
  constructor
  · have hl := is_table_lookup_none a hf
    simp only [List.mem_cons, List.mem_singleton, List.not_mem_nil, or_false,
      not_or] at hu
    obtain ⟨u1, u2, u3, u4, u5⟩ := hu
    simp only [info_index, luaL_checkudata, if_true, Userdata.asInfoPtr, hn, hl,
      if_neg u1, if_neg u2, if_neg u3, if_neg u4, if_neg u5]
    by_cases hprop : a = "typeinfo"
    · subst hprop
      cases ht : n.type <;> simp_all [GI_IS_ARG_INFO, GI_IS_CONSTANT_INFO,
        GI_IS_PROPERTY_INFO, GI_IS_FIELD_INFO, unsupported]
    · simp only [if_neg hprop]
      cases ht : n.type <;>
        simp_all [GI_IS_REGISTERED_TYPE_INFO, registered_type_branch, unsupported]
  · intro t
    cases t <;> decide

/-- Applying C19 to the sample repository: `fields` on the struct `Point`,
`parent` on the object `Widget`, `properties` on the interface `Buildable`
and `typeinfo` on the struct `Point` all raise the unsupported-property
error. -/
theorem registered_type_only_gtype_witness :
    info_index sample_GI_INFO sample_heap (sample_info 1) "fields"
      = .raise (.argerror 2 "unsupported info property `fields'") sample_heap ∧
    info_index sample_GI_INFO sample_heap (sample_info 6) "parent"
      = .raise (.argerror 2 "unsupported info property `parent'") sample_heap ∧
    info_index sample_GI_INFO sample_heap (sample_info 7) "properties"
      = .raise (.argerror 2 "unsupported info property `properties'") sample_heap ∧
    info_index sample_GI_INFO sample_heap (sample_info 1) "typeinfo"
      = .raise (.argerror 2 "unsupported info property `typeinfo'") sample_heap :=
  ⟨(registered_type_only_gtype sample_GI_INFO sample_heap 1 _ "fields" rfl
      (by decide) (by decide) (by decide) (by decide)).1,
   (registered_type_only_gtype sample_GI_INFO sample_heap 6 _ "parent" rfl
      (by decide) (by decide) (by decide) (by decide)).1,
   (registered_type_only_gtype sample_GI_INFO sample_heap 7 _ "properties" rfl
      (by decide) (by decide) (by decide) (by decide)).1,
   (registered_type_only_gtype sample_GI_INFO sample_heap 1 _ "typeinfo" rfl
      (by decide) (by decide) (by decide) (by decide)).1⟩

end Lgi

